import Mathlib

/-!
Verification of the Balancer arbitrage strategy (`src/balancer_v2.py`).

The strategy's `Decimal` values are embedded as exact rationals (`ℚ`).
Where the Python code passes a value through IEEE-754 binary floating
point — `float(self.minimum_profitability)` on line 146 and the
`Decimal(0.00029470706118118590121419309206649)` constructor on line 75,
whose argument is a binary float literal — the embedding uses the exact
rational value of the resulting double (a dyadic rational), computed
once and fixed below.
-/

namespace BalancerV2

/-- Trade side, mirroring `hummingbot.core.data_type.common.TradeType`
as used by the strategy (only `BUY` and `SELL` occur). -/
inductive TradeType where
  | BUY
  | SELL
deriving DecidableEq, Repr

/-- `TradeParams` dataclass: chain, network, connector, base, quote,
and an optional wallet address set later (`address: str = None`). -/
structure TradeParams where
  chain : String
  network : String
  connector : String
  base : String
  quote : String
  address : Option String := none
deriving DecidableEq, Repr

/-- `connector_chain_network = "balancer_ethereum_mainnet"`. -/
def connector_chain_network : String := "balancer_ethereum_mainnet"

/-- `trading_pair = "WETH-DAI"`. -/
def trading_pair : String := "WETH-DAI"

/-- `order_amount = Decimal("1")`. -/
def order_amount : ℚ := 1

/-- `slippage_buffer = Decimal("0.01")`. -/
def slippage_buffer : ℚ := 1 / 100

/-- `minimum_profitability = Decimal("0.0005")`, as the exact decimal value. -/
def minimum_profitability : ℚ := 5 / 10000

/-- The exact value of the IEEE-754 double `float(Decimal("0.0005"))`
that line 146 actually compares against: `1152921504606847 / 2^61`.
It is strictly greater than `0.0005`. -/
def float_minimum_profitability : ℚ := 1152921504606847 / 2305843009213693952

/-- The exact value stored by line 75,
`Decimal(0.00029470706118118590121419309206649)`: the `Decimal`
constructor receives the IEEE-754 double nearest the written literal,
namely `5436385734324399 / 2^64`. -/
def api_price_constant : ℚ := 5436385734324399 / 18446744073709551616

/-- The exact rational value of the decimal literal
`0.00029470706118118590121419309206649` as written in the source text
(what `Decimal("...")` of the same digits would have produced). -/
def api_price_literal : ℚ := 29470706118118590121419309206649 / 10 ^ 35

/-- `calculate_trade_direction` (lines 134-156):
`deviation = (dex_price - api_price) / api_price`; if
`abs(deviation) > thr` then `SELL` when `deviation > 0` else `BUY`;
otherwise `None`.  The threshold argument `thr` is the value the
comparison uses; the strategy passes `float(self.minimum_profitability)`,
i.e. `float_minimum_profitability`. -/
def calculate_trade_direction (dex_price api_price thr : ℚ) : Option TradeType :=
  let deviation := (dex_price - api_price) / api_price
  if |deviation| > thr then
    if deviation > 0 then some TradeType.SELL else some TradeType.BUY
  else
    none

/-- Limit price computation (lines 123-126): for `BUY`,
`dex_price * (1 + slippage)`; otherwise (`SELL`), `dex_price * (1 - slippage)`. -/
def limit_price (trade_type : TradeType) (dex_price slippage : ℚ) : ℚ :=
  if trade_type = TradeType.BUY then
    dex_price * (1 + slippage)
  else
    dex_price * (1 - slippage)

/-- Outcome of one run of the confirmation-polling loop. -/
inductive TxOutcome where
  | Confirmed
  | Unknown
  | PollError
  | StillPending
deriving DecidableEq, Repr

/-- `poll_transaction` (lines 225-248) over a finite trace of
per-query responses (`Except.error` models a raised transport error,
`Except.ok s` a returned `txStatus` code `s`).  Returns the outcome and
the number of status queries made.  `tx_status == 1` ends the loop as
confirmed; `tx_status in [-1, 0, 2]` sleeps and re-queries; any other
code ends the loop reporting an unknown status; a raised error is
caught, logged, and ends the loop.  An exhausted trace means the loop
was still pending and about to query again. -/
def poll_transaction : List (Except String Int) → TxOutcome × Nat
  | [] => (TxOutcome.StillPending, 0)
  | r :: rest =>
    match r with
    | Except.error _ => (TxOutcome.PollError, 1)
    | Except.ok s =>
      if s = 1 then
        (TxOutcome.Confirmed, 1)
      else if s = -1 ∨ s = 0 ∨ s = 2 then
        ((poll_transaction rest).1, (poll_transaction rest).2 + 1)
      else
        (TxOutcome.Unknown, 1)

/-- Mutable strategy state relevant to ticking: the two cached prices,
the `on_going_task` flag, and the number of launched arbitrage tasks
whose asynchronous work has not yet resolved. -/
structure StrategyState where
  api_price : ℚ
  dex_price : ℚ
  on_going_task : Bool
  pending_tasks : Nat
deriving DecidableEq, Repr

/-- Constructor state (`__init__`, lines 45-48): both prices 0, the
class-level `on_going_task = False`, no task launched. -/
def init_state : StrategyState :=
  { api_price := 0, dex_price := 0, on_going_task := false, pending_tasks := 0 }

/-- `update_api_price` (lines 62-76): overwrites `api_price` with the
fixed constant. -/
def update_api_price (s : StrategyState) : StrategyState :=
  { s with api_price := api_price_constant }

/-- `on_tick` (lines 50-60), statement by statement: if the guard is
down, update the API price, raise the guard, launch `arbitrage_task`
via `safe_ensure_future` (one more pending task; the coroutine does not
run inside the synchronous `on_tick`), then immediately lower the
guard. -/
def on_tick (s : StrategyState) : StrategyState :=
  if s.on_going_task = false then
    let s1 := update_api_price s
    let s2 := { s1 with on_going_task := true }
    let s3 := { s2 with pending_tasks := s2.pending_tasks + 1 }
    { s3 with on_going_task := false }
  else
    s

/-- Python truthiness of `params.address` (`if not params.address`):
`None` and the empty string are falsy, every other string is truthy. -/
def address_truthy : Option String → Bool
  | none => false
  | some a => !(a == "")

/-- A `get_price` request as `fetch_dex_price` (lines 98-105) issues
it: the params' identifiers, the configured `order_amount`, and side
`TradeType.BUY`, fixed in the call. -/
structure GetPriceRequest where
  chain : String
  network : String
  connector : String
  base : String
  quote : String
  amount : ℚ
  side : TradeType
deriving DecidableEq, Repr

/-- The request `fetch_dex_price` sends to the gateway (line 102-104). -/
def fetch_dex_price_request (params : TradeParams) : GetPriceRequest :=
  { chain := params.chain, network := params.network, connector := params.connector,
    base := params.base, quote := params.quote,
    amount := order_amount, side := TradeType.BUY }

/-- Observable result of `determine_and_execute_trade` (lines 107-132):
the final `params.address` and, if the `amm_trade` gateway call was
made, the address, side and limit price passed to it. -/
structure DetTrace where
  address : Option String
  submit_call : Option (Option String × TradeType × ℚ)
deriving DecidableEq, Repr

/-- `determine_and_execute_trade` (lines 107-132): compute the trade
direction; on `None` return at once (address never set).  Otherwise
resolve the wallet address into `params.address`; if it is falsy
(`None` or empty), return without trading.  Otherwise report balances,
compute the limit price and call `execute_trade`, i.e. `amm_trade`,
with the resolved address. -/
def determine_and_execute_trade (dex_price api_price thr : ℚ)
    (wallet_lookup : Option String) : DetTrace :=
  match calculate_trade_direction dex_price api_price thr with
  | none => { address := none, submit_call := none }
  | some trade_type =>
    let addr := wallet_lookup
    if address_truthy addr then
      { address := addr,
        submit_call := some (addr, trade_type, limit_price trade_type dex_price slippage_buffer) }
    else
      { address := addr, submit_call := none }

/-- The behaviour of the external gateway and wallet configuration
during one cycle: each field is the response (or raised exception,
`Except.error`) of the corresponding collaborator call. -/
structure GatewayEnv where
  price_response : Except String ℚ
  wallet_response : Except String (Option String)
  balance_response : Except String Unit
  trade_response : Except String String
  poll_responses : List (Except String Int)
deriving Repr

/-- Outcome of one arbitrage cycle as reported at the cycle boundary. -/
inductive CycleOutcome where
  | completed
  | noTrade
  | noWallet
  | failed (msg : String)
deriving DecidableEq, Repr

/-- Body of `execute_trade`'s `try` block (lines 187-207): submit the
trade, poll the transaction (which catches its own polling errors,
line 246-248), fetch post-trade balances. -/
def execute_trade_raw (env : GatewayEnv) : Except String Unit := do
  let _tx ← env.trade_response
  let _poll := poll_transaction env.poll_responses
  let _ ← env.balance_response
  pure ()

/-- `execute_trade` (lines 179-210): the `try`/`except` catches any
exception from submission, polling or the balance report and logs it
instead of re-raising. -/
def execute_trade (env : GatewayEnv) : Except String Unit :=
  match execute_trade_raw env with
  | Except.ok _ => Except.ok ()
  | Except.error _ => Except.ok ()

/-- Body of `arbitrage_task`'s `try` block (lines 82-93): build the
trade params, fetch the DEX price, then determine and execute the
trade (wallet lookup, pre-trade balance report, trade execution).
Any exception propagates as `Except.error`. -/
def arbitrage_task_raw (env : GatewayEnv) : Except String CycleOutcome := do
  let dex ← env.price_response
  match calculate_trade_direction dex api_price_constant float_minimum_profitability with
  | none => pure CycleOutcome.noTrade
  | some trade_type => do
    let addr ← env.wallet_response
    if address_truthy addr then do
      let _ ← env.balance_response
      let _limit := limit_price trade_type dex slippage_buffer
      let _ ← execute_trade env
      pure CycleOutcome.completed
    else
      pure CycleOutcome.noWallet

/-- `arbitrage_task` (lines 78-96): the cycle-boundary `try`/`except`
turns every exception raised inside the pipeline into a logged,
no-op cycle outcome; nothing propagates to the scheduler. -/
def arbitrage_task (env : GatewayEnv) : Except String CycleOutcome :=
  match arbitrage_task_raw env with
  | Except.ok outcome => Except.ok outcome
  | Except.error e => Except.ok (CycleOutcome.failed e)

/-- One scheduler-level event: a tick, or the resolution of a launched
`arbitrage_task` (which fetches some DEX price `q` and never writes
`api_price` or `on_going_task`). -/
inductive Step : StrategyState → StrategyState → Prop where
  | tick (s : StrategyState) : Step s (on_tick s)
  | resolve (s : StrategyState) (q : ℚ) (h : 0 < s.pending_tasks) :
      Step s { s with pending_tasks := s.pending_tasks - 1, dex_price := q }

/-- States reachable from the constructor state via ticks and task
resolutions. -/
inductive Reachable : StrategyState → Prop where
  | init : Reachable init_state
  | step {s t : StrategyState} : Reachable s → Step s t → Reachable t

end BalancerV2

namespace BalancerV2

/-- C1: with `deviation = (venue - oracle) / oracle`, the direction
evaluation returns no trade whenever `|deviation| ≤ thr`, `SELL`
whenever `deviation > thr`, and `BUY` whenever `deviation < -thr`,
for any nonzero oracle price and nonnegative threshold. -/
theorem calculate_trade_direction_sign_cases (dex api thr : ℚ)
    (hapi : api ≠ 0) (hthr : 0 ≤ thr) :
    (|(dex - api) / api| ≤ thr → calculate_trade_direction dex api thr = none)
    ∧ ((dex - api) / api > thr → calculate_trade_direction dex api thr = some TradeType.SELL)
    ∧ ((dex - api) / api < -thr → calculate_trade_direction dex api thr = some TradeType.BUY) := by
  unfold calculate_trade_direction
  refine ⟨?_, ?_, ?_⟩
  · intro hle
    simp [not_lt.mpr hle]
  · intro hgt
    have habs : |(dex - api) / api| > thr := lt_of_lt_of_le hgt (le_abs_self _)
    have hpos : (dex - api) / api > 0 := lt_of_le_of_lt hthr hgt
    simp [habs, hpos]
  · intro hlt
    have habs : |(dex - api) / api| > thr := by
      have := neg_lt_neg hlt
      simpa using lt_of_lt_of_le this (neg_le_abs _)
    have hneg : ¬ ((dex - api) / api > 0) := by
      have : (dex - api) / api < 0 := lt_of_lt_of_le hlt (by simpa using neg_nonpos_of_nonneg hthr)
      exact not_lt.mpr (le_of_lt this)
    simp [habs, hneg]

/-- Witness for C1 at dex = 2, api = 1, thr = 1/2: deviation 1 exceeds
the threshold, so the evaluator returns `SELL`. -/
theorem calculate_trade_direction_sign_cases_witness :
    calculate_trade_direction 2 1 (1 / 2) = some TradeType.SELL :=
  (calculate_trade_direction_sign_cases 2 1 (1 / 2) (by norm_num) (by norm_num)).2.1
    (by norm_num)

/-- C3: the submitted limit price is `dex_price * (1 + slippage)` for
`BUY` and `dex_price * (1 - slippage)` for `SELL`; for a nonnegative
venue price it is monotonically increasing in slippage for `BUY` and
monotonically decreasing for `SELL`. -/
theorem limit_price_formula_and_monotone (p s s1 s2 : ℚ)
    (hp : 0 ≤ p) (hs : s1 ≤ s2) :
    limit_price TradeType.BUY p s = p * (1 + s)
    ∧ limit_price TradeType.SELL p s = p * (1 - s)
    ∧ limit_price TradeType.BUY p s1 ≤ limit_price TradeType.BUY p s2
    ∧ limit_price TradeType.SELL p s2 ≤ limit_price TradeType.SELL p s1 := by
  refine ⟨rfl, rfl, ?_, ?_⟩
  · unfold limit_price
    simp only [if_pos rfl]
    exact mul_le_mul_of_nonneg_left (by linarith) hp
  · unfold limit_price
    simp only [reduceCtorEq, if_neg, ite_false]
    exact mul_le_mul_of_nonneg_left (by linarith) hp

/-- Witness for C3 at p = 3, s = 1/100, s1 = 0, s2 = 1/100. -/
theorem limit_price_formula_and_monotone_witness :
    limit_price TradeType.BUY 3 (1 / 100) = 3 * (1 + 1 / 100)
    ∧ limit_price TradeType.SELL 3 (1 / 100) = 3 * (1 - 1 / 100)
    ∧ limit_price TradeType.BUY 3 0 ≤ limit_price TradeType.BUY 3 (1 / 100)
    ∧ limit_price TradeType.SELL 3 (1 / 100) ≤ limit_price TradeType.SELL 3 0 :=
  limit_price_formula_and_monotone 3 (1 / 100) 0 (1 / 100) (by norm_num) (by norm_num)

/-- C4: the polling loop re-queries exactly on status codes in
`{-1, 0, 2}`; status `1` terminates the loop as confirmed after exactly
one query; any other status terminates it reporting an unknown status
after exactly one query, regardless of what later responses would have
said. -/
theorem poll_transaction_status_cases (s : Int) (rest : List (Except String Int)) :
    (s = 1 → poll_transaction (Except.ok s :: rest) = (TxOutcome.Confirmed, 1))
    ∧ ((s = -1 ∨ s = 0 ∨ s = 2) →
        poll_transaction (Except.ok s :: rest) =
          ((poll_transaction rest).1, (poll_transaction rest).2 + 1))
    ∧ (¬ s = 1 → ¬ (s = -1 ∨ s = 0 ∨ s = 2) →
        poll_transaction (Except.ok s :: rest) = (TxOutcome.Unknown, 1)) := by
  refine ⟨?_, ?_, ?_⟩
  · intro h1
    simp [poll_transaction, h1]
  · intro hpend
    have h1 : ¬ s = 1 := by
      rcases hpend with h | h | h <;> simp [h]
    simp [poll_transaction, h1, hpend]
  · intro h1 hpend
    simp [poll_transaction, h1, hpend]

/-- Witness for C4 at status 5 (unrecognized) with a confirmed status
queued behind it: the loop stops after one query and never sees it. -/
theorem poll_transaction_status_cases_witness :
    poll_transaction [Except.ok 5, Except.ok 1] = (TxOutcome.Unknown, 1) :=
  (poll_transaction_status_cases 5 [Except.ok 1]).2.2 (by decide) (by decide)

/-- C8: if a status query raises a transport error after any run of
pending responses, the loop terminates on that iteration reporting the
error; it makes no further queries, whatever responses would have
followed. -/
theorem poll_transaction_transport_error (e : String)
    (pre : List Int) (rest : List (Except String Int))
    (hpre : ∀ s ∈ pre, s = -1 ∨ s = 0 ∨ s = 2) :
    poll_transaction (pre.map Except.ok ++ Except.error e :: rest) =
      (TxOutcome.PollError, pre.length + 1) := by
  induction pre with
  | nil => simp [poll_transaction]
  | cons s tl ih =>
    have hs : s = -1 ∨ s = 0 ∨ s = 2 := hpre s (List.mem_cons_self s tl)
    have h1 : ¬ s = 1 := by
      rcases hs with h | h | h <;> simp [h]
    have htl : ∀ x ∈ tl, x = -1 ∨ x = 0 ∨ x = 2 := fun x hx => hpre x (List.mem_cons_of_mem s hx)
    simp [poll_transaction, h1, hs, ih htl]

/-- Witness for C8: one pending response, then a transport error, with
a confirmed status queued behind it: the loop reports the error after
two queries and does not retry. -/
theorem poll_transaction_transport_error_witness :
    poll_transaction [Except.ok 0, Except.error "boom", Except.ok 1] =
      (TxOutcome.PollError, 2) :=
  poll_transaction_transport_error "boom" [0] [Except.ok 1] (by decide)

/-- C2 counterexample evidence: `on_tick` lowers `on_going_task` again
immediately after launching the task (line 60), so a second tick fired
while the first task is still unresolved passes the guard and launches
a second pipeline: two tasks are in flight, not one. -/
theorem on_tick_reentrancy_two_launches :
    (on_tick init_state).on_going_task = false
    ∧ (on_tick init_state).pending_tasks = 1
    ∧ (on_tick (on_tick init_state)).pending_tasks = 2 := by
  refine ⟨rfl, rfl, rfl⟩

/-- C10: in every reachable state that has a launched, unresolved
arbitrage task, the API price has already been overwritten with the
fixed constant, which is nonzero — so the division by `api_price` in
`calculate_trade_direction` never divides by zero. -/
theorem api_price_nonzero_when_task_pending (s : StrategyState)
    (hs : Reachable s) (hp : 0 < s.pending_tasks) :
    s.api_price = api_price_constant ∧ s.api_price ≠ 0 := by
  have hconst : api_price_constant ≠ 0 := by
    unfold api_price_constant
    norm_num
  have key : ∀ t : StrategyState, Reachable t →
      0 < t.pending_tasks → t.api_price = api_price_constant := by
    intro t ht
    induction ht with
    | init => intro h; exact absurd h (by simp [init_state])
    | @step u v hr hstep ih =>
      intro hpos
      cases hstep with
      | tick =>
        by_cases hg : u.on_going_task = false
        · simp [on_tick, hg, update_api_price]
        · have heq : on_tick u = u := by simp [on_tick, hg]
          rw [heq] at hpos ⊢
          exact ih hpos
      | resolve q h =>
        simpa using ih h
  have h1 := key s hs hp
  exact ⟨h1, h1 ▸ hconst⟩

/-- Witness for C10: the state after the first tick has one pending
task and the nonzero constant API price. -/
theorem api_price_nonzero_when_task_pending_witness :
    (on_tick init_state).api_price = api_price_constant
    ∧ (on_tick init_state).api_price ≠ 0 :=
  api_price_nonzero_when_task_pending (on_tick init_state)
    (Reachable.step Reachable.init (Step.tick init_state)) (by decide)

/-- C5 evidence: the threshold actually compared on line 146 is the
binary double `float(Decimal("0.0005"))`, which is strictly greater
than `0.0005`; at a deviation equal to that double the comparison as
coded yields no trade while the all-decimal comparison the claim
describes yields `SELL`.  Moreover the stored oracle constant is the
binary double of the literal on line 75, not the decimal value of its
digits. -/
theorem threshold_float_conversion_divergence :
    minimum_profitability < float_minimum_profitability
    ∧ calculate_trade_direction (1 + float_minimum_profitability) 1
        float_minimum_profitability = none
    ∧ calculate_trade_direction (1 + float_minimum_profitability) 1
        minimum_profitability = some TradeType.SELL
    ∧ api_price_constant ≠ api_price_literal := by
  have hdev : ((1 + float_minimum_profitability - 1) / 1 : ℚ) = float_minimum_profitability := by
    ring
  have hfpos : (0 : ℚ) < float_minimum_profitability := by
    norm_num [float_minimum_profitability]
  refine ⟨by norm_num [minimum_profitability, float_minimum_profitability], ?_, ?_, ?_⟩
  · unfold calculate_trade_direction
    simp only [hdev]
    simp [abs_of_pos hfpos, lt_irrefl]
  · unfold calculate_trade_direction
    simp only [hdev]
    have hgt : |float_minimum_profitability| > minimum_profitability := by
      rw [abs_of_pos hfpos]
      norm_num [float_minimum_profitability, minimum_profitability]
    simp [hgt, hfpos]
  · unfold api_price_constant api_price_literal
    norm_num

/-- C6: the cycle boundary (`try`/`except` in `arbitrage_task`)
converts every exception raised by the pipeline into an ordinary
`failed` outcome: the entry point always returns normally, and when
the pipeline raises `e` the outcome is exactly `failed e`. -/
theorem arbitrage_task_catches_all (env : GatewayEnv) :
    (arbitrage_task env).isOk = true
    ∧ ∀ e, arbitrage_task_raw env = Except.error e →
        arbitrage_task env = Except.ok (CycleOutcome.failed e) := by
  constructor
  · cases h : arbitrage_task_raw env <;> simp [arbitrage_task, h, Except.isOk, Except.toBool]
  · intro e he
    simp [arbitrage_task, he]

/-- Witness for C6: a cycle whose price fetch raises ends as a
reported `failed` outcome, not a propagated exception. -/
theorem arbitrage_task_catches_all_witness :
    arbitrage_task
      { price_response := Except.error "boom", wallet_response := Except.ok none,
        balance_response := Except.ok (), trade_response := Except.ok "",
        poll_responses := [] } = Except.ok (CycleOutcome.failed "boom") :=
  (arbitrage_task_catches_all
      { price_response := Except.error "boom", wallet_response := Except.ok none,
        balance_response := Except.ok (), trade_response := Except.ok "",
        poll_responses := [] }).2 "boom" rfl

/-- C7: the wallet address stays unset when no profitable direction is
found; the `amm_trade` gateway call is made only with a determined
`BUY`/`SELL` direction and a resolved, non-empty address; and a failed
wallet lookup ends the cycle with no submission. -/
theorem trade_submission_guarded (dex api thr : ℚ) (w : Option String) :
    (calculate_trade_direction dex api thr = none →
      (determine_and_execute_trade dex api thr w).address = none
      ∧ (determine_and_execute_trade dex api thr w).submit_call = none)
    ∧ (∀ c, (determine_and_execute_trade dex api thr w).submit_call = some c →
        (∃ tt, calculate_trade_direction dex api thr = some tt ∧ c.2.1 = tt)
        ∧ ∃ a, (determine_and_execute_trade dex api thr w).address = some a
            ∧ a ≠ "" ∧ c.1 = some a)
    ∧ (w = none → (determine_and_execute_trade dex api thr w).submit_call = none) := by
  refine ⟨?_, ?_, ?_⟩
  · intro h
    simp [determine_and_execute_trade, h]
  · intro c hc
    cases h : calculate_trade_direction dex api thr with
    | none => simp [determine_and_execute_trade, h] at hc
    | some tt =>
      cases w with
      | none => simp [determine_and_execute_trade, h, address_truthy] at hc
      | some a =>
        by_cases ha : a = ""
        · simp [determine_and_execute_trade, h, address_truthy, ha] at hc
        · have hc' : c = (some a, tt, limit_price tt dex slippage_buffer) := by
            simpa [determine_and_execute_trade, h, address_truthy, ha] using hc.symm
          subst hc'
          exact ⟨⟨tt, rfl, rfl⟩,
            ⟨a, by simp [determine_and_execute_trade, h, address_truthy, ha], ha, rfl⟩⟩
  · intro hw
    subst hw
    cases h : calculate_trade_direction dex api thr with
    | none => simp [determine_and_execute_trade, h]
    | some tt => simp [determine_and_execute_trade, h, address_truthy]

/-- Witness for C7: with oracle = venue (deviation 0) the direction is
`None`, the address stays unset and no submission call is made. -/
theorem trade_submission_guarded_witness :
    (determine_and_execute_trade 1 1 0 (some "0xabc")).address = none
    ∧ (determine_and_execute_trade 1 1 0 (some "0xabc")).submit_call = none :=
  (trade_submission_guarded 1 1 0 (some "0xabc")).1
    (by norm_num [calculate_trade_direction])

/-- C9: the venue quote request is always issued for the configured
`order_amount` with side `BUY`, whatever the params (and independently
of any eventual trade direction, which is not an input to the
request). -/
theorem fetch_dex_price_request_side_and_amount (params : TradeParams) :
    (fetch_dex_price_request params).side = TradeType.BUY
    ∧ (fetch_dex_price_request params).amount = order_amount :=
  ⟨rfl, rfl⟩

end BalancerV2
